import Mathlib

/-!
Verification of `src/modules/repartitioner.py` (resinhup).

Shallow embedding of the `Repartitioner` class: the destructive partition
editor `editPartition` (lines 32-111) and the boot-partition growth state
machine `increaseResinBootTo` (lines 113-270).

External collaborators (mount/umount, safeCopy, formatEXT3/formatVFAT,
configureBootloader, tempfile.mkdtemp, the parted library) are modelled as
an environment of boolean call outcomes; every external call is also
recorded as an event in a trace, so that "no mutation happened" and
ordering properties can be stated.  Sizes are exact integer sector counts;
`spu` ("sectors per unit") stands for the parted unit conversion factor
(`parted.sizeToSectors(1, unit, sectorSize)`), so unit-valued quantities
relate to sector-valued ones by multiplication/division by `spu`.
-/

namespace Resinhup

/-- A partition extent in sectors (parted `Geometry`; `end` is a Lean
keyword, so the end sector is called `stop`). -/
structure Geometry where
  start : Int
  stop : Int
deriving DecidableEq, Repr

/-- Sector length of a geometry, as in parted: `end - start + 1`. -/
def Geometry.length (g : Geometry) : Int := g.stop - g.start + 1

/-- `parted.sizeToSectors(amount, unit, sectorSize)`: `spu` is the number
of sectors per `unit`. -/
def sizeToSectors (amount : Int) (spu : Int) : Int := amount * spu

/-- `partition.getLength(unit)` followed by `int(...)`: the sector length
converted to the unit.  (Exact when `spu` divides the length.) -/
def lengthInUnit (g : Geometry) (spu : Int) : Int := g.length / spu

/-- Python floor division `//`, used for `deltasize // 2`. -/
def pydiv (a b : Int) : Int := Int.fdiv a b

/-- A partition: path, geometry, filesystem type, label, and its file
contents (abstract bytes). -/
structure PartState where
  path : String
  geometry : Geometry
  fstype : String
  fslabel : String
  contents : List Nat
deriving DecidableEq, Repr

/-- Trace events: one per external call made by the repartitioner. -/
inductive Ev where
  | mkTempDir
  | mountEv (path : String)
  | umountEv (path : String)
  | startUdev
  | deletePart (path : String)
  | addPart (path : String)
  | commitTable
  | formatEv (path : String) (fstype : String) (label : String)
  | copyEv (src : String) (dst : String)
  | rmBackup
  | configBootloader (fromPath : String) (toPath : String)
deriving DecidableEq, Repr

/-- Outcomes of the external calls made by one `editPartition` call
(lines 32-111 of `repartitioner.py`).  `mountedAtEntry` is what
`isMounted(targetPartition.path)` reports on entry.  `backupPartial` /
`restorePartial` stand for the unspecified contents left behind when the
corresponding `safeCopy` fails (the code only logs those failures). -/
structure EditEnv where
  mountedAtEntry : Bool
  mkMountpointOk : Bool
  mountOk : Bool
  mkBackupdirOk : Bool
  backupCopyOk : Bool
  backupPartial : List Nat
  umountOk : Bool
  formatOk : Bool
  spuriouslyMountedAtRestore : Bool
  remountOk : Bool
  restoreCopyOk : Bool
  restorePartial : List Nat
deriving DecidableEq, Repr

/-- Result of one `editPartition` call: the Python return value (`ok`),
the final state of the edited partition, the trace of external calls, and
whether the temporary backup directory was created / removed. -/
structure EditResult where
  ok : Bool
  part : PartState
  events : List Ev
  backupTaken : Bool
  backupRemoved : Bool
deriving DecidableEq, Repr

/-- Lines 93-109 of `editPartition`: restore data in `targetPartition`.
`backup` is `none` when `safeDataThroughTmp` was not set; `p2` and `evs`
are the partition state and the trace after the format phase.  The
defensive `isMounted` check of line 96 is the environment bit
`spuriouslyMountedAtRestore`; the copy-back failure is only logged and
the backup directory is removed unconditionally before `return True`. -/
def editRestore (env : EditEnv) (targetPath : String)
    (backup : Option (List Nat)) (p2 : PartState) (evs : List Ev) : EditResult :=
  match backup with
  | none => ⟨true, p2, evs, false, false⟩
  | some backupContents =>
    if env.spuriouslyMountedAtRestore then
      -- lines 96-98: target should not be mounted here
      ⟨false, p2, evs, true, false⟩
    else if !env.remountOk then
      -- lines 100-102: failed to re-mount for the restore
      ⟨false, p2, evs ++ [Ev.mountEv targetPath], true, false⟩
    else
      -- lines 104-109: copy back (failure only logged), then rmtree
      ⟨true,
       ⟨p2.path, p2.geometry, p2.fstype, p2.fslabel,
        if env.restoreCopyOk then backupContents else env.restorePartial⟩,
       evs ++ [Ev.mountEv targetPath, Ev.copyEv "/tmp/backup" targetPath,
         Ev.rmBackup],
       true, true⟩

/-- Lines 59-111 of `editPartition`: everything after the backup phase.
`evs0` is the trace of the backup phase, `backup` its result.  The target
is mounted at this point exactly when `safeDataThroughTmp` was set (the
backup phase mounted it) or it was mounted at entry. -/
def editPartitionMain (env : EditEnv) (target : PartState)
    (deltaStart deltaEnd : Int) (fstype fslabel : String) (spu : Int)
    (formatPartition safeDataThroughTmp : Bool)
    (evs0 : List Ev) (backup : Option (List Nat)) : EditResult :=
  -- lines 59-62: make sure that partition is not mounted
  let mountedNow := safeDataThroughTmp || env.mountedAtEntry
  if mountedNow && !env.umountOk then
    ⟨false, target, evs0 ++ [Ev.umountEv target.path], backup.isSome, false⟩
  else
    let evs1 := evs0 ++ (if mountedNow then [Ev.umountEv target.path] else [])
      ++ [Ev.startUdev]
    -- lines 67-70: calculate the new geometry
    let newGeom : Geometry :=
      ⟨target.geometry.start + sizeToSectors deltaStart spu,
       target.geometry.stop + sizeToSectors deltaEnd spu⟩
    -- lines 72-77: destroy the partition and recreate it, then commit
    let p1 : PartState :=
      ⟨target.path, newGeom, fstype, target.fslabel, target.contents⟩
    let evs2 := evs1 ++ [Ev.deletePart target.path, Ev.addPart target.path,
      Ev.commitTable]
    -- lines 79-91: format filesystem
    if formatPartition then
      if fstype = "ext3" ∨ fstype = "ext4" then
        if env.formatOk then
          editRestore env target.path backup
            ⟨p1.path, p1.geometry, p1.fstype, fslabel, []⟩
            (evs2 ++ [Ev.formatEv target.path fstype fslabel])
        else
          ⟨false, p1, evs2 ++ [Ev.formatEv target.path fstype fslabel],
           backup.isSome, false⟩
      else if fstype = "fat32" then
        if env.formatOk then
          editRestore env target.path backup
            ⟨p1.path, p1.geometry, p1.fstype, fslabel, []⟩
            (evs2 ++ [Ev.formatEv target.path fstype fslabel])
        else
          ⟨false, p1, evs2 ++ [Ev.formatEv target.path fstype fslabel],
           backup.isSome, false⟩
      else
        -- lines 89-91: format of this fstype is not implemented
        ⟨false, p1, evs2, backup.isSome, false⟩
    else
      editRestore env target.path backup p1 evs2

/-- Shallow embedding of `Repartitioner.editPartition` (lines 32-111).

Line-by-line correspondence:
* lines 36-57 (this function): if `safeDataThroughTmp`, ensure the target
  is mounted (creating a temporary mountpoint and mounting if needed; each
  failure returns `False`), create a temporary backup directory (failure
  returns `False`), and `safeCopy` the mountpoint into it — a failed
  backup copy is only logged, execution continues with the partial backup;
* lines 59-62 (`editPartitionMain`): if the target is mounted, `umount`
  it (failure returns `False`).  The mounted state there is
  `safeDataThroughTmp || mountedAtEntry` (after the backup phase the
  target is always mounted);
* line 65: `startUdevDaemon()`;
* lines 67-70: new geometry = old geometry shifted by
  `sizeToSectors(deltaStart)` / `sizeToSectors(deltaEnd)`;
* lines 72-77: delete the partition, recreate it with the new geometry
  and the given filesystem type, commit the table;
* lines 79-91: if `formatPartition`, dispatch on `fstype`
  (`ext3`/`ext4` → `formatEXT3`, `fat32` → `formatVFAT`, anything else
  returns `False` with no formatter called); a failed format returns
  `False`;
* lines 93-109 (`editRestore`): if `safeDataThroughTmp`, check the target
  is not mounted (if it somehow is, return `False`), mount it (failure
  returns `False`), `safeCopy` the backup back (failure only logged),
  then `shutil.rmtree(backupdir)`;
* line 111: return `True`. -/
def editPartition (env : EditEnv) (target : PartState)
    (deltaStart deltaEnd : Int) (fstype fslabel : String) (spu : Int)
    (formatPartition safeDataThroughTmp : Bool) : EditResult :=
  -- lines 36-57: backup data to a directory in tmp
  if safeDataThroughTmp then
    if env.mountedAtEntry then
      -- lines 38-39: already mounted, reuse its mountpoint
      if env.mkBackupdirOk then
        editPartitionMain env target deltaStart deltaEnd fstype fslabel spu
          formatPartition safeDataThroughTmp
          [Ev.mkTempDir, Ev.copyEv target.path "/tmp/backup"]
          (some (if env.backupCopyOk then target.contents else env.backupPartial))
      else
        -- lines 51-55: could not create the temporary backup directory
        ⟨false, target, [Ev.mkTempDir], false, false⟩
    else
      -- lines 41-48: create a temporary mountpoint and mount the target
      if env.mkMountpointOk then
        if env.mountOk then
          if env.mkBackupdirOk then
            editPartitionMain env target deltaStart deltaEnd fstype fslabel spu
              formatPartition safeDataThroughTmp
              [Ev.mkTempDir, Ev.mountEv target.path, Ev.mkTempDir,
               Ev.copyEv target.path "/tmp/backup"]
              (some (if env.backupCopyOk then target.contents else env.backupPartial))
          else
            ⟨false, target,
             [Ev.mkTempDir, Ev.mountEv target.path, Ev.mkTempDir], false, false⟩
        else
          ⟨false, target, [Ev.mkTempDir, Ev.mountEv target.path], false, false⟩
      else
        ⟨false, target, [Ev.mkTempDir], false, false⟩
  else
    editPartitionMain env target deltaStart deltaEnd fstype fslabel spu
      formatPartition safeDataThroughTmp [] none

/-- Outcomes of the external calls of the clone phase of states A / B of
`increaseResinBootTo` (lines 171-190 and 221-239). -/
structure CopyEnv where
  mkMountpointOk : Bool
  mountOk : Bool
  copyOk : Bool
  umountOk : Bool
deriving DecidableEq, Repr

/-- Outcomes of all external calls of one `increaseResinBootTo` run. -/
structure RunEnv where
  editUpdt : EditEnv
  editRoot : EditEnv
  editBoot : EditEnv
  copyA : CopyEnv
  copyB : CopyEnv
  bootloaderAOk : Bool
  bootloaderBOk : Bool
  formatRootOk : Bool
deriving DecidableEq, Repr

/-- Result of a run: `success` is `return True`, `failure` is
`return False`, `rebootExit` is `sys.exit(2)`. -/
inductive Outcome where
  | success
  | failure
  | rebootExit
deriving DecidableEq, Repr

/-- Final state of one `increaseResinBootTo` run: outcome, the three
partitions, the bootloader's configured next root, and the event trace. -/
structure RunResult where
  outcome : Outcome
  boot : PartState
  rootA : PartState
  rootB : PartState
  bootNext : Option String
  events : List Ev
deriving DecidableEq, Repr

/-- Shallow embedding of `Repartitioner.increaseResinBootTo`
(lines 113-270).  `boot`/`rootA`/`rootB` are resin-boot / resin-root /
resin-updt; `currentRootPath` is `self.currentResinRootPartPath`;
`bootNext` is the bootloader's configured next root.

Line-by-line correspondence:
* line 150: `deltasize = int(size) - int(resinBootPart.getLength(unit))`;
* lines 152-156 (state D): boot already long enough → `return True`,
  nothing touched;
* lines 158-198 (state A, booted from resin-root, equal root lengths):
  `editPartition(resinUpdtPart, deltaStart = deltasize // 2, deltaEnd = 0,
  fstype = ext4, format)`; then create a temporary mountpoint (failure →
  `return False`), mount resin-updt — a mount failure is only logged and
  execution continues —, `safeCopy` the live root onto it (failure →
  `umount` and `return False`), `umount` (failure → `return False`),
  `configureBootloader(current, resin-updt)` (failure → `return False`),
  then `sys.exit(2)` unless in test mode (test mode falls through to the
  final `return True` of line 270);
* lines 199-206 (state E, booted from resin-root, unequal lengths):
  `return False`, nothing touched;
* lines 208-248 (state B, booted from resin-updt, equal lengths):
  `formatEXT3(resin-root)` then the symmetric clone phase onto
  resin-root, `configureBootloader(current, resin-root)`, `sys.exit(2)`
  unless in test mode;
* lines 249-265 (state C, booted from resin-updt, unequal lengths):
  `editPartition(resinRootPart, deltaStart = deltasize,
  deltaEnd = deltasize // 2, ext4, format)`, then
  `editPartition(resinBootPart, deltaStart = 0, deltaEnd = deltasize,
  fat32, format, safeDataThroughTmp = True)`, then `return True`;
* lines 266-268: unknown root partition → `return False`.

The clone-phase `safeCopy` updates the standby partition's contents only
when the preceding mount actually succeeded (otherwise the copy lands in
the unmounted temporary directory); the copy call itself is recorded in
the trace either way. -/
def increaseResinBootTo (env : RunEnv) (boot rootA rootB : PartState)
    (bootNext : Option String) (currentRootPath : String)
    (size : Int) (spu : Int) (testMode : Bool) : RunResult :=
  -- line 150
  let deltasize : Int := size - lengthInUnit boot.geometry spu
  -- lines 152-156: state D
  if lengthInUnit boot.geometry spu ≥ size then
    ⟨Outcome.success, boot, rootA, rootB, bootNext, []⟩
  else if currentRootPath = rootA.path then
    if lengthInUnit rootA.geometry spu = lengthInUnit rootB.geometry spu then
      -- State A (lines 161-198)
      let er := editPartition env.editUpdt rootB (pydiv deltasize 2) 0
        "ext4" "resin-updt" spu true false
      if !er.ok then
        ⟨Outcome.failure, boot, rootA, er.part, bootNext, er.events⟩
      else if !env.copyA.mkMountpointOk then
        -- lines 176-180
        ⟨Outcome.failure, boot, rootA, er.part, bootNext, er.events ++ [Ev.mkTempDir]⟩
      else
        -- lines 181-182: mount; a failure is only logged
        let evs1 := er.events ++ [Ev.mkTempDir, Ev.mountEv rootB.path]
        -- lines 183-186: safeCopy live root -> resin-updt
        let evs2 := evs1 ++ [Ev.copyEv rootA.path rootB.path]
        let rootB1 := if env.copyA.mountOk && env.copyA.copyOk then
            (⟨er.part.path, er.part.geometry, er.part.fstype, er.part.fslabel,
              rootA.contents⟩ : PartState)
          else er.part
        if !env.copyA.copyOk then
          ⟨Outcome.failure, boot, rootA, rootB1, bootNext,
           evs2 ++ [Ev.umountEv rootB.path]⟩
        else if !env.copyA.umountOk then
          -- lines 187-189
          ⟨Outcome.failure, boot, rootA, rootB1, bootNext,
           evs2 ++ [Ev.umountEv rootB.path]⟩
        else
          -- lines 191-194
          let evs3 := evs2 ++ [Ev.umountEv rootB.path,
            Ev.configBootloader currentRootPath rootB.path]
          if !env.bootloaderAOk then
            ⟨Outcome.failure, boot, rootA, rootB1, bootNext, evs3⟩
          else
            -- lines 196-198 and 270
            ⟨if testMode then Outcome.success else Outcome.rebootExit,
             boot, rootA, rootB1, some rootB.path, evs3⟩
    else
      -- State E (lines 199-206)
      ⟨Outcome.failure, boot, rootA, rootB, bootNext, []⟩
  else if currentRootPath = rootB.path then
    if lengthInUnit rootA.geometry spu = lengthInUnit rootB.geometry spu then
      -- State B (lines 210-248)
      if !env.formatRootOk then
        -- lines 216-219
        ⟨Outcome.failure, boot, rootA, rootB, bootNext,
         [Ev.formatEv rootA.path "ext3" "resin-root"]⟩
      else
        let rootA0 : PartState :=
          ⟨rootA.path, rootA.geometry, "ext3", "resin-root", []⟩
        let evs0 := [Ev.formatEv rootA.path "ext3" "resin-root"]
        if !env.copyB.mkMountpointOk then
          -- lines 226-230
          ⟨Outcome.failure, boot, rootA0, rootB, bootNext, evs0 ++ [Ev.mkTempDir]⟩
        else
          -- lines 231-232: mount; a failure is only logged
          let evs1 := evs0 ++ [Ev.mkTempDir, Ev.mountEv rootA.path]
          -- lines 233-236: safeCopy live root -> resin-root
          let evs2 := evs1 ++ [Ev.copyEv rootB.path rootA.path]
          let rootA1 := if env.copyB.mountOk && env.copyB.copyOk then
              (⟨rootA0.path, rootA0.geometry, rootA0.fstype, rootA0.fslabel,
                rootB.contents⟩ : PartState)
            else rootA0
          if !env.copyB.copyOk then
            ⟨Outcome.failure, boot, rootA1, rootB, bootNext,
             evs2 ++ [Ev.umountEv rootA.path]⟩
          else if !env.copyB.umountOk then
            -- lines 237-239
            ⟨Outcome.failure, boot, rootA1, rootB, bootNext,
             evs2 ++ [Ev.umountEv rootA.path]⟩
          else
            -- lines 241-244
            let evs3 := evs2 ++ [Ev.umountEv rootA.path,
              Ev.configBootloader currentRootPath rootA.path]
            if !env.bootloaderBOk then
              ⟨Outcome.failure, boot, rootA1, rootB, bootNext, evs3⟩
            else
              -- lines 246-248 and 270
              ⟨if testMode then Outcome.success else Outcome.rebootExit,
               boot, rootA1, rootB, some rootA.path, evs3⟩
    else
      -- State C (lines 249-265)
      let er := editPartition env.editRoot rootA deltasize (pydiv deltasize 2)
        "ext4" "resin-root" spu true false
      if !er.ok then
        ⟨Outcome.failure, boot, er.part, rootB, bootNext, er.events⟩
      else
        let eb := editPartition env.editBoot boot 0 deltasize
          "fat32" "resin-boot" spu true true
        if !eb.ok then
          ⟨Outcome.failure, eb.part, er.part, rootB, bootNext,
           er.events ++ eb.events⟩
        else
          ⟨Outcome.success, eb.part, er.part, rootB, bootNext,
           er.events ++ eb.events⟩
  else
    -- lines 266-268
    ⟨Outcome.failure, boot, rootA, rootB, bootNext, []⟩

end Resinhup

namespace Resinhup

/-! ## General lemmas about `editPartition` -/

/-- All external calls of one `editPartition` invocation succeed (and the
defensive mounted-check of line 96 is quiet). -/
def EditEnv.allOk (e : EditEnv) : Bool :=
  e.mkMountpointOk && e.mountOk && e.mkBackupdirOk && e.backupCopyOk &&
  e.umountOk && e.formatOk && !e.spuriouslyMountedAtRestore && e.remountOk &&
  e.restoreCopyOk

/-- The event trace of a fully successful `editPartition` call. -/
def editEventsOk (e : EditEnv) (t : PartState) (fs lbl : String)
    (fmt safe : Bool) : List Ev :=
  (if safe then
     (if e.mountedAtEntry then [Ev.mkTempDir, Ev.copyEv t.path "/tmp/backup"]
      else [Ev.mkTempDir, Ev.mountEv t.path, Ev.mkTempDir,
            Ev.copyEv t.path "/tmp/backup"])
   else []) ++
  (if safe || e.mountedAtEntry then [Ev.umountEv t.path] else []) ++
  [Ev.startUdev, Ev.deletePart t.path, Ev.addPart t.path, Ev.commitTable] ++
  (if fmt then [Ev.formatEv t.path fs lbl] else []) ++
  (if safe then [Ev.mountEv t.path, Ev.copyEv "/tmp/backup" t.path, Ev.rmBackup]
   else [])

/-! ## Concrete fixtures (used by witnesses and counterexamples)

A disk with boot partition `"b"` of 100 sectors, resin-root `"r"` of 200
sectors and resin-updt `"u"` of either 150 sectors (unequal root lengths,
states C/E) or 200 sectors (equal root lengths, states A/B); `spu = 1`
(the unit is one sector). -/

/-- An `editPartition` environment in which every external call succeeds. -/
def envAll : EditEnv := ⟨true, true, true, true, true, [], true, true, false, true, true, []⟩

/-- A clone-phase environment in which every external call succeeds. -/
def cpAll : CopyEnv := ⟨true, true, true, true⟩

/-- A run environment in which every external call succeeds. -/
def runAll : RunEnv := ⟨envAll, envAll, envAll, cpAll, cpAll, true, true, true⟩

/-- resin-boot fixture: sectors 0-99. -/
def bootP : PartState := ⟨"b", ⟨0, 99⟩, "fat32", "resin-boot", [1, 2]⟩

/-- resin-root fixture: sectors 100-299. -/
def rootAP : PartState := ⟨"r", ⟨100, 299⟩, "ext4", "resin-root", [3]⟩

/-- resin-updt fixture with a length different from resin-root (state C). -/
def rootBP : PartState := ⟨"u", ⟨350, 499⟩, "ext4", "resin-updt", [4]⟩

/-- resin-updt fixture with the same length as resin-root (states A/B). -/
def rootBPeq : PartState := ⟨"u", ⟨300, 499⟩, "ext4", "resin-updt", [4]⟩

/-- An `editPartition` environment in which only the restore copy-back
(`safeCopy(backupdir, mountpoint)`, line 105) fails. -/
def envRestoreFail : EditEnv := ⟨true, true, true, true, true, [], true, true, false, true, false, [9]⟩

/-- An `editPartition` environment in which only the re-mount before the
restore (line 100) fails. -/
def envRemountFail : EditEnv := ⟨true, true, true, true, true, [], true, true, false, false, true, []⟩

/-- A clone-phase environment in which only `safeCopy` fails. -/
def cpFail : CopyEnv := ⟨true, true, false, true⟩

/-- A run environment in which the clone-phase `safeCopy` fails. -/
def runFailCopy : RunEnv := ⟨envAll, envAll, envAll, cpFail, cpFail, true, true, true⟩

/-- A clone-phase environment in which the `mount` call fails (and the
later `umount` fails, as it would for a never-mounted directory). -/
def cpMountFail : CopyEnv := ⟨true, false, true, false⟩

/-- A run environment with the failing clone-phase mount. -/
def runMountFail : RunEnv := ⟨envAll, envAll, envAll, cpMountFail, cpMountFail, true, true, true⟩

/-- Characterization of `editPartition` when every external call succeeds
and the requested filesystem type is one the format dispatch implements:
the call returns `True`, the partition ends at the geometry shifted by the
two deltas, it carries the requested filesystem type and (if formatted)
label, and its contents are restored from the backup when
`safeDataThroughTmp` was set (wiped by the format otherwise). -/
theorem editPartition_allOk (e : EditEnv) (t : PartState) (dS dE : Int)
    (fs lbl : String) (spu : Int) (fmt safe : Bool)
    (h : e.allOk = true)
    (hfs : fmt = true → fs = "ext3" ∨ fs = "ext4" ∨ fs = "fat32") :
    editPartition e t dS dE fs lbl spu fmt safe =
      ⟨true,
       ⟨t.path, ⟨t.geometry.start + sizeToSectors dS spu,
                 t.geometry.stop + sizeToSectors dE spu⟩, fs,
        if fmt then lbl else t.fslabel,
        if safe then t.contents else if fmt then [] else t.contents⟩,
       editEventsOk e t fs lbl fmt safe, safe, safe⟩ := by
  simp only [EditEnv.allOk, Bool.and_eq_true, Bool.not_eq_true'] at h
  obtain ⟨⟨⟨⟨⟨⟨⟨⟨h1, h2⟩, h3⟩, h4⟩, h5⟩, h6⟩, h7⟩, h8⟩, h9⟩ := h
  cases fmt with
  | false =>
    cases hm : e.mountedAtEntry <;> cases safe <;>
      simp [editPartition, editPartitionMain, editRestore, editEventsOk,
        hm, h1, h2, h3, h4, h5, h6, h7, h8, h9]
  | true =>
    rcases hfs rfl with hf | hf | hf <;> subst hf <;>
      cases hm : e.mountedAtEntry <;> cases safe <;>
        simp [editPartition, editPartitionMain, editRestore, editEventsOk,
          hm, h1, h2, h3, h4, h5, h6, h7, h8, h9]

/-- The restore phase never removes the backup directory on a `False`
return. -/
theorem editRestore_fail_keeps_backup (e : EditEnv) (p : String)
    (b : Option (List Nat)) (p2 : PartState) (evs : List Ev) :
    (editRestore e p b p2 evs).ok = false →
    (editRestore e p b p2 evs).backupRemoved = false := by
  intro hx
  unfold editRestore at hx ⊢
  cases b
  · simp_all
  · split_ifs at hx ⊢ <;> simp_all

/-- The restore phase does not change the partition's geometry. -/
theorem editRestore_geometry (e : EditEnv) (p : String)
    (b : Option (List Nat)) (p2 : PartState) (evs : List Ev) :
    (editRestore e p b p2 evs).part.geometry = p2.geometry := by
  unfold editRestore
  cases b
  · rfl
  · split_ifs <;> rfl

/-- Every event of the restore phase is either inherited or one of
mount / copy-back / remove-backup. -/
theorem editRestore_events_sub (e : EditEnv) (p : String)
    (b : Option (List Nat)) (p2 : PartState) (evs : List Ev) (x : Ev) :
    x ∈ (editRestore e p b p2 evs).events →
    x ∈ evs ∨ x = Ev.mountEv p ∨ x = Ev.copyEv "/tmp/backup" p ∨ x = Ev.rmBackup := by
  intro hx
  unfold editRestore at hx
  cases b
  · exact Or.inl hx
  · split_ifs at hx <;> (simp_all; try tauto)

theorem editMain_fail_keeps_backup (e : EditEnv) (t : PartState) (dS dE : Int)
    (fs lbl : String) (spu : Int) (fmt safe : Bool)
    (evs0 : List Ev) (b : Option (List Nat)) :
    (editPartitionMain e t dS dE fs lbl spu fmt safe evs0 b).ok = false →
    (editPartitionMain e t dS dE fs lbl spu fmt safe evs0 b).backupRemoved = false := by
  intro hx
  unfold editPartitionMain at hx ⊢
  simp only [Bool.and_eq_true, Bool.or_eq_true, Bool.not_eq_true'] at hx ⊢
  split_ifs at hx ⊢ <;>
    first | exact editRestore_fail_keeps_backup _ _ _ _ _ hx | simp_all

theorem editMain_commit_geometry (e : EditEnv) (t : PartState) (dS dE : Int)
    (fs lbl : String) (spu : Int) (fmt safe : Bool)
    (evs0 : List Ev) (b : Option (List Nat))
    (h0 : Ev.commitTable ∉ evs0) :
    Ev.commitTable ∈ (editPartitionMain e t dS dE fs lbl spu fmt safe evs0 b).events →
    (editPartitionMain e t dS dE fs lbl spu fmt safe evs0 b).part.geometry =
      ⟨t.geometry.start + sizeToSectors dS spu,
       t.geometry.stop + sizeToSectors dE spu⟩ := by
  intro hx
  unfold editPartitionMain at hx ⊢
  simp only [Bool.and_eq_true, Bool.or_eq_true, Bool.not_eq_true'] at hx ⊢
  split_ifs at hx ⊢ <;>
    first
      | (rw [editRestore_geometry])
      | simp_all

theorem editMain_no_config (e : EditEnv) (t : PartState) (dS dE : Int)
    (fs lbl : String) (spu : Int) (fmt safe : Bool)
    (evs0 : List Ev) (b : Option (List Nat)) (f g : String)
    (h0 : Ev.configBootloader f g ∉ evs0) :
    Ev.configBootloader f g ∉
      (editPartitionMain e t dS dE fs lbl spu fmt safe evs0 b).events := by
  intro hx
  unfold editPartitionMain at hx
  simp only [Bool.and_eq_true, Bool.or_eq_true, Bool.not_eq_true'] at hx
  split_ifs at hx <;>
    first
      | (rcases editRestore_events_sub _ _ _ _ _ _ hx with h | h | h | h <;> simp_all)
      | simp_all

/-- `editPartition` never calls `configureBootloader`. -/
theorem edit_no_config (e : EditEnv) (t : PartState) (dS dE : Int)
    (fs lbl : String) (spu : Int) (fmt safe : Bool) (f g : String) :
    Ev.configBootloader f g ∉
      (editPartition e t dS dE fs lbl spu fmt safe).events := by
  intro hx
  unfold editPartition at hx
  split_ifs at hx <;>
    first
      | exact editMain_no_config _ _ _ _ _ _ _ _ _ _ _ _ _ (by simp) hx
      | simp_all

end Resinhup

namespace Resinhup

/-! ## Claim theorems -/

/-- C1, counterexample: a fully successful state-C run (booted from
resin-updt `"u"`, root lengths 200 vs 150, boot length 100, target 150,
so `deltasize = 50`) leaves resin-root with length 175, not the claimed
200 + 50: the geometry edit `deltaStart = deltasize`,
`deltaEnd = deltasize // 2` shrinks resin-root by
`deltasize - deltasize // 2` sectors instead of growing it by
`deltasize`. -/
theorem c1_counterexample :
    (increaseResinBootTo runAll bootP rootAP rootBP none "u" 150 1 false).outcome =
        Outcome.success ∧
    Geometry.length rootAP.geometry = 200 ∧
    (150 : Int) - lengthInUnit bootP.geometry 1 = 50 ∧
    Geometry.length
        (increaseResinBootTo runAll bootP rootAP rootBP none "u" 150 1 false).rootA.geometry =
      175 ∧
    (175 : Int) ≠ 200 + 50 := by
  decide

/-- C1, amended: in every state-C invocation (booted from resin-updt,
unequal root lengths, boot smaller than the target) in which the
resin-root edit succeeds, resin-root's start is shifted right by
`deltasize` and its end by `deltasize // 2` (in the unit, converted to
sectors), so its length changes by `deltasize // 2 - deltasize` — a
shrink by `deltasize - deltasize // 2` — rather than growing by
`deltasize`. -/
theorem c1_stateC_rootA_shift (env : RunEnv) (boot rootA rootB : PartState)
    (bootNext : Option String) (size spu : Int) (tm : Bool)
    (hlt : lengthInUnit boot.geometry spu < size)
    (hAB : rootB.path ≠ rootA.path)
    (hne : lengthInUnit rootA.geometry spu ≠ lengthInUnit rootB.geometry spu)
    (henv : env.editRoot.allOk = true) :
    (increaseResinBootTo env boot rootA rootB bootNext rootB.path size spu tm).rootA.geometry =
      ⟨rootA.geometry.start + (size - lengthInUnit boot.geometry spu) * spu,
       rootA.geometry.stop + pydiv (size - lengthInUnit boot.geometry spu) 2 * spu⟩ ∧
    Geometry.length
        (increaseResinBootTo env boot rootA rootB bootNext rootB.path size spu tm).rootA.geometry =
      Geometry.length rootA.geometry -
        ((size - lengthInUnit boot.geometry spu) -
          pydiv (size - lengthInUnit boot.geometry spu) 2) * spu := by
  have hgeo : (increaseResinBootTo env boot rootA rootB bootNext rootB.path size spu tm).rootA.geometry =
      ⟨rootA.geometry.start + (size - lengthInUnit boot.geometry spu) * spu,
       rootA.geometry.stop + pydiv (size - lengthInUnit boot.geometry spu) 2 * spu⟩ := by
    rcases hb : editPartition env.editBoot boot 0 (size - lengthInUnit boot.geometry spu)
        "fat32" "resin-boot" spu true true with ⟨bok, bpart, bevents, bt, br⟩
    unfold increaseResinBootTo
    rw [if_neg (not_le.mpr hlt), if_neg hAB, if_pos rfl, if_neg hne,
      editPartition_allOk _ _ _ _ _ _ _ _ _ henv (fun _ => Or.inr (Or.inl rfl)), hb]
    cases bok <;> simp [sizeToSectors]
  refine ⟨hgeo, ?_⟩
  rw [hgeo]
  simp only [Geometry.length]
  ring

/-- C1, witness for the amended theorem at the concrete state-C fixture. -/
theorem c1_stateC_rootA_shift_witness :
    (increaseResinBootTo runAll bootP rootAP rootBP none rootBP.path 150 1 false).rootA.geometry =
      ⟨rootAP.geometry.start + (150 - lengthInUnit bootP.geometry 1) * 1,
       rootAP.geometry.stop + pydiv (150 - lengthInUnit bootP.geometry 1) 2 * 1⟩ ∧
    Geometry.length
        (increaseResinBootTo runAll bootP rootAP rootBP none rootBP.path 150 1 false).rootA.geometry =
      Geometry.length rootAP.geometry -
        ((150 - lengthInUnit bootP.geometry 1) - pydiv (150 - lengthInUnit bootP.geometry 1) 2) * 1 :=
  c1_stateC_rootA_shift runAll bootP rootAP rootBP none 150 1 false
    (by decide) (by decide) (by decide) (by decide)

/-- C2, counterexample: with `safeDataThroughTmp` set and every call
succeeding except the restore copy-back, `editPartition` does NOT return
failure: the copy-back failure is only logged, the backup directory IS
removed, and the call returns `True`. -/
theorem c2_counterexample :
    envRestoreFail.restoreCopyOk = false ∧
    (editPartition envRestoreFail bootP 0 0 "fat32" "resin-boot" 1 true true).ok = true ∧
    (editPartition envRestoreFail bootP 0 0 "fat32" "resin-boot" 1 true true).backupRemoved = true := by
  decide

/-- C2, amended: the temporary backup directory is removed only on the
success path — on every failure return of `editPartition` (including the
checks around re-mounting for the restore) the backup directory is not
removed; a failed copy-back, however, does not itself cause a failure
return: the backup is removed and the call returns success. -/
theorem c2_backup_preserved_on_failure (e : EditEnv) (t : PartState) (dS dE : Int)
    (fs lbl : String) (spu : Int) (fmt safe : Bool) :
    (editPartition e t dS dE fs lbl spu fmt safe).ok = false →
    (editPartition e t dS dE fs lbl spu fmt safe).backupRemoved = false := by
  intro hx
  unfold editPartition at hx ⊢
  split_ifs at hx ⊢ <;>
    first | exact editMain_fail_keeps_backup _ _ _ _ _ _ _ _ _ _ _ hx | simp_all

/-- C2, witness: a failing re-mount before the restore returns failure
and preserves the backup directory. -/
theorem c2_backup_preserved_on_failure_witness :
    (editPartition envRemountFail bootP 0 0 "fat32" "resin-boot" 1 true true).ok = false ∧
    (editPartition envRemountFail bootP 0 0 "fat32" "resin-boot" 1 true true).backupRemoved = false :=
  ⟨by decide,
   c2_backup_preserved_on_failure envRemountFail bootP 0 0 "fat32" "resin-boot" 1 true true (by decide)⟩

/-- C3: in every state-A invocation (booted from resin-root, equal root
lengths, boot smaller than the target) in which every external call
succeeds, resin-updt is shrunk from its start by exactly
`deltasize // 2` in the given unit (its end unchanged), it is
reformatted as ext4, its contents become a full copy of the live root's
contents, the bootloader's configured next root is resin-updt, and the
invocation exits with the distinguished reboot signal (or returns
success in test mode). -/
theorem c3_stateA_clone_and_switch (env : RunEnv) (boot rootA rootB : PartState)
    (bootNext : Option String) (size spu : Int) (tm : Bool)
    (hlt : lengthInUnit boot.geometry spu < size)
    (heq : lengthInUnit rootA.geometry spu = lengthInUnit rootB.geometry spu)
    (henv : env.editUpdt.allOk = true)
    (hmk : env.copyA.mkMountpointOk = true) (hmo : env.copyA.mountOk = true)
    (hco : env.copyA.copyOk = true) (hum : env.copyA.umountOk = true)
    (hbl : env.bootloaderAOk = true) :
    (increaseResinBootTo env boot rootA rootB bootNext rootA.path size spu tm).rootB.geometry.start =
        rootB.geometry.start + pydiv (size - lengthInUnit boot.geometry spu) 2 * spu ∧
    (increaseResinBootTo env boot rootA rootB bootNext rootA.path size spu tm).rootB.geometry.stop =
        rootB.geometry.stop ∧
    Geometry.length
        (increaseResinBootTo env boot rootA rootB bootNext rootA.path size spu tm).rootB.geometry =
      Geometry.length rootB.geometry -
        pydiv (size - lengthInUnit boot.geometry spu) 2 * spu ∧
    (increaseResinBootTo env boot rootA rootB bootNext rootA.path size spu tm).rootB.fstype =
        "ext4" ∧
    Ev.formatEv rootB.path "ext4" "resin-updt" ∈
        (increaseResinBootTo env boot rootA rootB bootNext rootA.path size spu tm).events ∧
    (increaseResinBootTo env boot rootA rootB bootNext rootA.path size spu tm).rootB.contents =
        rootA.contents ∧
    (increaseResinBootTo env boot rootA rootB bootNext rootA.path size spu tm).bootNext =
        some rootB.path ∧
    (increaseResinBootTo env boot rootA rootB bootNext rootA.path size spu tm).outcome =
        (if tm then Outcome.success else Outcome.rebootExit) := by
  have hrun : increaseResinBootTo env boot rootA rootB bootNext rootA.path size spu tm =
      ⟨if tm then Outcome.success else Outcome.rebootExit,
       boot, rootA,
       ⟨rootB.path, ⟨rootB.geometry.start + pydiv (size - lengthInUnit boot.geometry spu) 2 * spu,
          rootB.geometry.stop⟩, "ext4", "resin-updt", rootA.contents⟩,
       some rootB.path,
       editEventsOk env.editUpdt rootB "ext4" "resin-updt" true false ++
         [Ev.mkTempDir, Ev.mountEv rootB.path, Ev.copyEv rootA.path rootB.path,
          Ev.umountEv rootB.path, Ev.configBootloader rootA.path rootB.path]⟩ := by
    unfold increaseResinBootTo
    rw [if_neg (not_le.mpr hlt), if_pos rfl, if_pos heq,
      editPartition_allOk _ _ _ _ _ _ _ _ _ henv (fun _ => Or.inr (Or.inl rfl))]
    simp [sizeToSectors, hmk, hmo, hco, hum, hbl]
  rw [hrun]
  refine ⟨rfl, rfl, ?_, rfl, ?_, rfl, rfl, rfl⟩
  · simp only [Geometry.length]
    ring
  · simp [editEventsOk]

/-- C3, witness at the concrete state-A fixture. -/
theorem c3_stateA_clone_and_switch_witness :
    (increaseResinBootTo runAll bootP rootAP rootBPeq none rootAP.path 120 1 false).rootB.geometry.start =
        rootBPeq.geometry.start + pydiv (120 - lengthInUnit bootP.geometry 1) 2 * 1 ∧
    (increaseResinBootTo runAll bootP rootAP rootBPeq none rootAP.path 120 1 false).rootB.geometry.stop =
        rootBPeq.geometry.stop ∧
    Geometry.length
        (increaseResinBootTo runAll bootP rootAP rootBPeq none rootAP.path 120 1 false).rootB.geometry =
      Geometry.length rootBPeq.geometry - pydiv (120 - lengthInUnit bootP.geometry 1) 2 * 1 ∧
    (increaseResinBootTo runAll bootP rootAP rootBPeq none rootAP.path 120 1 false).rootB.fstype =
        "ext4" ∧
    Ev.formatEv rootBPeq.path "ext4" "resin-updt" ∈
        (increaseResinBootTo runAll bootP rootAP rootBPeq none rootAP.path 120 1 false).events ∧
    (increaseResinBootTo runAll bootP rootAP rootBPeq none rootAP.path 120 1 false).rootB.contents =
        rootAP.contents ∧
    (increaseResinBootTo runAll bootP rootAP rootBPeq none rootAP.path 120 1 false).bootNext =
        some rootBPeq.path ∧
    (increaseResinBootTo runAll bootP rootAP rootBPeq none rootAP.path 120 1 false).outcome =
        (if false then Outcome.success else Outcome.rebootExit) :=
  c3_stateA_clone_and_switch runAll bootP rootAP rootBPeq none 120 1 false
    (by decide) (by decide) (by decide) (by decide) (by decide) (by decide) (by decide) (by decide)

/-- C4: for every target size at most the current boot-partition length
(state D), `increaseResinBootTo` returns success and performs no
mutation: the partitions, the bootloader configuration and the event
trace (no delete, add, commit, format, copy or bootloader call) are all
unchanged/empty. -/
theorem c4_stateD_noop (env : RunEnv) (boot rootA rootB : PartState)
    (bootNext : Option String) (cur : String) (size spu : Int) (tm : Bool)
    (h : size ≤ lengthInUnit boot.geometry spu) :
    increaseResinBootTo env boot rootA rootB bootNext cur size spu tm =
      ⟨Outcome.success, boot, rootA, rootB, bootNext, []⟩ := by
  unfold increaseResinBootTo
  rw [if_pos h]

/-- C4, witness at the concrete fixture (boot length 100, target 80). -/
theorem c4_stateD_noop_witness :
    (80 : Int) ≤ lengthInUnit bootP.geometry 1 ∧
    increaseResinBootTo runAll bootP rootAP rootBP none "u" 80 1 false =
      ⟨Outcome.success, bootP, rootAP, rootBP, none, []⟩ :=
  ⟨by decide, c4_stateD_noop runAll bootP rootAP rootBP none "u" 80 1 false (by decide)⟩

/-- C5, counterexample: with an unimplemented filesystem type the
format dispatch returns failure AFTER the destructive table commit has
executed, so not all failure-capable validation happens before the
commit. -/
theorem c5_counterexample :
    (editPartition envAll rootAP 0 0 "btrfs" "resin-root" 1 true false).ok = false ∧
    Ev.commitTable ∈ (editPartition envAll rootAP 0 0 "btrfs" "resin-root" 1 true false).events := by
  decide

/-- C5, amended: steps after the destructive commit (format dispatch,
re-mount for restore) CAN still return failure, but the committed table
change is never rolled back: whenever the commit has executed, the
partition ends with the new geometry computed from the two deltas, on
every path, failing or not. -/
theorem c5_commit_no_rollback (e : EditEnv) (t : PartState) (dS dE : Int)
    (fs lbl : String) (spu : Int) (fmt safe : Bool) :
    Ev.commitTable ∈ (editPartition e t dS dE fs lbl spu fmt safe).events →
    (editPartition e t dS dE fs lbl spu fmt safe).part.geometry =
      ⟨t.geometry.start + sizeToSectors dS spu,
       t.geometry.stop + sizeToSectors dE spu⟩ := by
  intro hx
  unfold editPartition at hx ⊢
  split_ifs at hx ⊢ <;>
    first
      | exact editMain_commit_geometry _ _ _ _ _ _ _ _ _ _ _ (by simp) hx
      | simp_all

/-- C5, witness for the amended theorem: at the unsupported-fstype input
the commit executed and the new geometry persists on the failure path. -/
theorem c5_commit_no_rollback_witness :
    Ev.commitTable ∈ (editPartition envAll rootAP 5 3 "btrfs" "resin-root" 1 true false).events ∧
    (editPartition envAll rootAP 5 3 "btrfs" "resin-root" 1 true false).part.geometry =
      ⟨105, 302⟩ :=
  ⟨by decide, by
    rw [c5_commit_no_rollback envAll rootAP 5 3 "btrfs" "resin-root" 1 true false (by decide)]
    decide⟩

/-- C6 (code bug): in the state-A clone phase, a failing `mount` of
resin-updt is only logged (line 181-182 has no `return False`, unlike
the analogous check in `editPartition` lines 46-48): the recursive copy
step is still performed, and the run fails only later — contradicting
the spec's "cannot mount — fatal, abort before any destructive step". -/
theorem c6_mount_failure_not_fatal :
    runMountFail.copyA.mountOk = false ∧
    Ev.copyEv rootAP.path rootBPeq.path ∈
      (increaseResinBootTo runMountFail bootP rootAP rootBPeq none "r" 120 1 false).events ∧
    (increaseResinBootTo runMountFail bootP rootAP rootBPeq none "r" 120 1 false).outcome =
      Outcome.failure := by
  decide

/-- C7: `editPartition` with `deltaStart = deltaEnd = 0` and
`backupThroughTemp` set, when the external calls succeed and the
filesystem type is implemented, returns success, leaves the partition's
geometry (start and end sector) unchanged, and leaves its file contents
byte-identical (round-trip law). -/
theorem c7_roundtrip (e : EditEnv) (t : PartState) (fs lbl : String)
    (spu : Int) (fmt : Bool)
    (h : e.allOk = true)
    (hfs : fs = "ext3" ∨ fs = "ext4" ∨ fs = "fat32") :
    (editPartition e t 0 0 fs lbl spu fmt true).ok = true ∧
    (editPartition e t 0 0 fs lbl spu fmt true).part.geometry = t.geometry ∧
    (editPartition e t 0 0 fs lbl spu fmt true).part.contents = t.contents := by
  rw [editPartition_allOk e t 0 0 fs lbl spu fmt true h (fun _ => hfs)]
  refine ⟨rfl, ?_, rfl⟩
  simp [sizeToSectors]

/-- C7, witness at the concrete boot-partition fixture. -/
theorem c7_roundtrip_witness :
    (editPartition envAll bootP 0 0 "fat32" "resin-boot" 1 true true).ok = true ∧
    (editPartition envAll bootP 0 0 "fat32" "resin-boot" 1 true true).part.geometry =
      bootP.geometry ∧
    (editPartition envAll bootP 0 0 "fat32" "resin-boot" 1 true true).part.contents =
      bootP.contents :=
  c7_roundtrip envAll bootP "fat32" "resin-boot" 1 true (by decide) (Or.inr (Or.inr rfl))

/-- C8: in every state-C invocation in which both `editPartition` calls
succeed (and the boot length is an exact multiple of the unit), the boot
partition keeps its start sector, its length grows by exactly
`deltasize` units so its final length in the unit equals the original
target `size`, its contents are preserved through the temporary backup
path, and the call returns terminal success (no reboot exit). -/
theorem c8_stateC_boot_target (env : RunEnv) (boot rootA rootB : PartState)
    (bootNext : Option String) (size spu : Int) (tm : Bool)
    (hlt : lengthInUnit boot.geometry spu < size)
    (hAB : rootB.path ≠ rootA.path)
    (hne : lengthInUnit rootA.geometry spu ≠ lengthInUnit rootB.geometry spu)
    (henvR : env.editRoot.allOk = true)
    (henvB : env.editBoot.allOk = true)
    (hspu : spu ≠ 0)
    (hdvd : spu ∣ Geometry.length boot.geometry) :
    (increaseResinBootTo env boot rootA rootB bootNext rootB.path size spu tm).outcome =
        Outcome.success ∧
    (increaseResinBootTo env boot rootA rootB bootNext rootB.path size spu tm).boot.geometry.start =
        boot.geometry.start ∧
    Geometry.length
        (increaseResinBootTo env boot rootA rootB bootNext rootB.path size spu tm).boot.geometry =
      Geometry.length boot.geometry + (size - lengthInUnit boot.geometry spu) * spu ∧
    lengthInUnit
        (increaseResinBootTo env boot rootA rootB bootNext rootB.path size spu tm).boot.geometry spu =
      size ∧
    (increaseResinBootTo env boot rootA rootB bootNext rootB.path size spu tm).boot.contents =
      boot.contents := by
  obtain ⟨k, hk⟩ := hdvd
  have hrun : increaseResinBootTo env boot rootA rootB bootNext rootB.path size spu tm =
      ⟨Outcome.success,
       ⟨boot.path, ⟨boot.geometry.start,
          boot.geometry.stop + (size - lengthInUnit boot.geometry spu) * spu⟩,
        "fat32", "resin-boot", boot.contents⟩,
       ⟨rootA.path, ⟨rootA.geometry.start + (size - lengthInUnit boot.geometry spu) * spu,
          rootA.geometry.stop + pydiv (size - lengthInUnit boot.geometry spu) 2 * spu⟩,
        "ext4", "resin-root", []⟩,
       rootB, bootNext,
       editEventsOk env.editRoot rootA "ext4" "resin-root" true false ++
         editEventsOk env.editBoot boot "fat32" "resin-boot" true true⟩ := by
    unfold increaseResinBootTo
    rw [if_neg (not_le.mpr hlt), if_neg hAB, if_pos rfl, if_neg hne,
      editPartition_allOk _ _ _ _ _ _ _ _ _ henvR (fun _ => Or.inr (Or.inl rfl)),
      editPartition_allOk _ _ _ _ _ _ _ _ _ henvB (fun _ => Or.inr (Or.inr rfl))]
    simp [sizeToSectors]
  rw [hrun]
  have hLU : lengthInUnit boot.geometry spu = k := by
    unfold lengthInUnit
    rw [hk]
    exact Int.mul_ediv_cancel_left k hspu
  refine ⟨rfl, rfl, ?_, ?_, rfl⟩
  · simp only [Geometry.length]
    ring
  · show (boot.geometry.stop + (size - lengthInUnit boot.geometry spu) * spu -
        boot.geometry.start + 1) / spu = size
    rw [hLU]
    have h2 : boot.geometry.stop + (size - k) * spu - boot.geometry.start + 1 = spu * size := by
      have h3 : boot.geometry.stop - boot.geometry.start + 1 = spu * k := hk
      linear_combination h3
    rw [h2]
    exact Int.mul_ediv_cancel_left size hspu

/-- C8, witness at the concrete state-C fixture (boot grows 100 → 150 =
target). -/
theorem c8_stateC_boot_target_witness :
    (increaseResinBootTo runAll bootP rootAP rootBP none rootBP.path 150 1 false).outcome =
        Outcome.success ∧
    (increaseResinBootTo runAll bootP rootAP rootBP none rootBP.path 150 1 false).boot.geometry.start =
        bootP.geometry.start ∧
    Geometry.length
        (increaseResinBootTo runAll bootP rootAP rootBP none rootBP.path 150 1 false).boot.geometry =
      Geometry.length bootP.geometry + (150 - lengthInUnit bootP.geometry 1) * 1 ∧
    lengthInUnit
        (increaseResinBootTo runAll bootP rootAP rootBP none rootBP.path 150 1 false).boot.geometry 1 =
      150 ∧
    (increaseResinBootTo runAll bootP rootAP rootBP none rootBP.path 150 1 false).boot.contents =
      bootP.contents :=
  c8_stateC_boot_target runAll bootP rootAP rootBP none 150 1 false
    (by decide) (by decide) (by decide) (by decide) (by decide) (by decide) ⟨100, by decide⟩

/-- C9: every state-E invocation (booted from resin-root while the two
root lengths differ, boot smaller than the target) returns a fatal
failure with no mutation: the partitions, the bootloader configuration
and the event trace are all unchanged/empty. -/
theorem c9_stateE_no_mutation (env : RunEnv) (boot rootA rootB : PartState)
    (bootNext : Option String) (size spu : Int) (tm : Bool)
    (hlt : lengthInUnit boot.geometry spu < size)
    (hne : lengthInUnit rootA.geometry spu ≠ lengthInUnit rootB.geometry spu) :
    increaseResinBootTo env boot rootA rootB bootNext rootA.path size spu tm =
      ⟨Outcome.failure, boot, rootA, rootB, bootNext, []⟩ := by
  unfold increaseResinBootTo
  rw [if_neg (not_le.mpr hlt), if_pos rfl, if_neg hne]

/-- C9, witness at the concrete state-E fixture. -/
theorem c9_stateE_no_mutation_witness :
    lengthInUnit bootP.geometry 1 < 150 ∧
    lengthInUnit rootAP.geometry 1 ≠ lengthInUnit rootBP.geometry 1 ∧
    increaseResinBootTo runAll bootP rootAP rootBP none rootAP.path 150 1 false =
      ⟨Outcome.failure, bootP, rootAP, rootBP, none, []⟩ :=
  ⟨by decide, by decide,
   c9_stateE_no_mutation runAll bootP rootAP rootBP none 150 1 false (by decide) (by decide)⟩

/-- C10: in every state-A and state-B run, `configureBootloader` is
reached only when the clone copy onto the standby partition and the
following unmount both reported success: if either fails, the run
returns failure and no `configureBootloader` event ever occurs, so the
bootloader is never pointed at a standby root whose clone did not
complete. -/
theorem c10_config_after_clone (env : RunEnv) (boot rootA rootB : PartState)
    (bootNext : Option String) (cur : String) (size spu : Int) (tm : Bool) :
    (cur = rootA.path →
      lengthInUnit boot.geometry spu < size →
      lengthInUnit rootA.geometry spu = lengthInUnit rootB.geometry spu →
      (∀ f g, Ev.configBootloader f g ∈
          (increaseResinBootTo env boot rootA rootB bootNext cur size spu tm).events →
        env.copyA.copyOk = true ∧ env.copyA.umountOk = true) ∧
      ((env.copyA.copyOk = false ∨ env.copyA.umountOk = false) →
        (increaseResinBootTo env boot rootA rootB bootNext cur size spu tm).outcome =
            Outcome.failure ∧
        ∀ f g, Ev.configBootloader f g ∉
          (increaseResinBootTo env boot rootA rootB bootNext cur size spu tm).events)) ∧
    (cur = rootB.path → cur ≠ rootA.path →
      lengthInUnit boot.geometry spu < size →
      lengthInUnit rootA.geometry spu = lengthInUnit rootB.geometry spu →
      (∀ f g, Ev.configBootloader f g ∈
          (increaseResinBootTo env boot rootA rootB bootNext cur size spu tm).events →
        env.copyB.copyOk = true ∧ env.copyB.umountOk = true) ∧
      ((env.copyB.copyOk = false ∨ env.copyB.umountOk = false) →
        (increaseResinBootTo env boot rootA rootB bootNext cur size spu tm).outcome =
            Outcome.failure ∧
        ∀ f g, Ev.configBootloader f g ∉
          (increaseResinBootTo env boot rootA rootB bootNext cur size spu tm).events)) := by
  have h2 : cur = rootA.path →
      lengthInUnit boot.geometry spu < size →
      lengthInUnit rootA.geometry spu = lengthInUnit rootB.geometry spu →
      (env.copyA.copyOk = false ∨ env.copyA.umountOk = false) →
      (increaseResinBootTo env boot rootA rootB bootNext cur size spu tm).outcome =
          Outcome.failure ∧
      ∀ f g, Ev.configBootloader f g ∉
        (increaseResinBootTo env boot rootA rootB bootNext cur size spu tm).events := by
    intro hcur hlt heq hfail
    subst hcur
    have hnc : ∀ f g, Ev.configBootloader f g ∉
        (editPartition env.editUpdt rootB
          (pydiv (size - lengthInUnit boot.geometry spu) 2) 0 "ext4" "resin-updt" spu
          true false).events := fun f g => edit_no_config _ _ _ _ _ _ _ _ _ f g
    rcases hb : editPartition env.editUpdt rootB
        (pydiv (size - lengthInUnit boot.geometry spu) 2) 0 "ext4" "resin-updt" spu
        true false with ⟨uok, upart, uevents, ubt, ubr⟩
    rw [hb] at hnc
    unfold increaseResinBootTo
    rw [if_neg (not_le.mpr hlt), if_pos rfl, if_pos heq, hb]
    clear hb
    rcases hfail with hf | hf <;>
      cases uok <;>
        cases hmk2 : env.copyA.mkMountpointOk <;>
          cases hco2 : env.copyA.copyOk <;>
            simp_all [List.mem_append]
  have h4 : cur = rootB.path → cur ≠ rootA.path →
      lengthInUnit boot.geometry spu < size →
      lengthInUnit rootA.geometry spu = lengthInUnit rootB.geometry spu →
      (env.copyB.copyOk = false ∨ env.copyB.umountOk = false) →
      (increaseResinBootTo env boot rootA rootB bootNext cur size spu tm).outcome =
          Outcome.failure ∧
      ∀ f g, Ev.configBootloader f g ∉
        (increaseResinBootTo env boot rootA rootB bootNext cur size spu tm).events := by
    intro hcur hAB hlt heq hfail
    subst hcur
    unfold increaseResinBootTo
    rw [if_neg (not_le.mpr hlt), if_neg hAB, if_pos rfl, if_pos heq]
    rcases hfail with hf | hf <;>
      cases hfr : env.formatRootOk <;>
        cases hmk2 : env.copyB.mkMountpointOk <;>
          cases hco2 : env.copyB.copyOk <;>
            simp_all [List.mem_append]
  refine ⟨fun hcur hlt heq => ⟨?_, h2 hcur hlt heq⟩,
          fun hcur hAB hlt heq => ⟨?_, h4 hcur hAB hlt heq⟩⟩
  · intro f g hmem
    cases hco : env.copyA.copyOk
    · exact absurd hmem ((h2 hcur hlt heq (Or.inl hco)).2 f g)
    · cases hum : env.copyA.umountOk
      · exact absurd hmem ((h2 hcur hlt heq (Or.inr hum)).2 f g)
      · exact ⟨rfl, rfl⟩
  · intro f g hmem
    cases hco : env.copyB.copyOk
    · exact absurd hmem ((h4 hcur hAB hlt heq (Or.inl hco)).2 f g)
    · cases hum : env.copyB.umountOk
      · exact absurd hmem ((h4 hcur hAB hlt heq (Or.inr hum)).2 f g)
      · exact ⟨rfl, rfl⟩

/-- C10, witness: at the state-A fixture with a failing clone copy the
run fails with no bootloader event; with everything succeeding the
bootloader event implies both clone steps succeeded; symmetric state-B
instance. -/
theorem c10_config_after_clone_witness :
    ((runFailCopy.copyA.copyOk = false ∨ runFailCopy.copyA.umountOk = false) →
      (increaseResinBootTo runFailCopy bootP rootAP rootBPeq none rootAP.path 120 1 false).outcome =
          Outcome.failure ∧
      ∀ f g, Ev.configBootloader f g ∉
        (increaseResinBootTo runFailCopy bootP rootAP rootBPeq none rootAP.path 120 1 false).events) ∧
    (runAll.copyA.copyOk = true ∧ runAll.copyA.umountOk = true) ∧
    ((runFailCopy.copyB.copyOk = false ∨ runFailCopy.copyB.umountOk = false) →
      (increaseResinBootTo runFailCopy bootP rootAP rootBPeq none rootBPeq.path 120 1 false).outcome =
          Outcome.failure ∧
      ∀ f g, Ev.configBootloader f g ∉
        (increaseResinBootTo runFailCopy bootP rootAP rootBPeq none rootBPeq.path 120 1 false).events) :=
  ⟨((c10_config_after_clone runFailCopy bootP rootAP rootBPeq none rootAP.path 120 1 false).1
      rfl (by decide) (by decide)).2,
   (c10_config_after_clone runAll bootP rootAP rootBPeq none rootAP.path 120 1 false).1
      rfl (by decide) (by decide) |>.1 rootAP.path rootBPeq.path (by decide),
   ((c10_config_after_clone runFailCopy bootP rootAP rootBPeq none rootBPeq.path 120 1 false).2
      rfl (by decide) (by decide) (by decide)).2⟩

end Resinhup
